import Mathlib

/-!
Shallow embedding of the `news-summarization` repository
(`src/app.py`, `src/news_summarization/news_extractor.py`,
`src/news_summarization/model_pipeline.py`) and proofs about it.

Python exceptions are modelled by the inductive `PyErr`; fallible Python
functions become Lean functions into `Except PyErr _`.  External collaborators
(the HTTP layer, `trafilatura`, the HuggingFace pipelines and their
tokenizers) are passed in as explicit oracle functions, so that a theorem
quantifying over the oracle quantifies over every behaviour the collaborator
can exhibit at that call site.
-/

namespace NewsSummarization

/-- Python exception classes that occur in the modelled code paths.
`runtimeError` carries whether the message mentions "CUDA" (the code only
uses that to choose a log level).  `unboundLocalError` models referencing a
local variable that was never assigned on the taken control path. -/
inductive PyErr where
  | valueError
  | indexError
  | typeError
  | osError
  | runtimeError (cudaRelated : Bool)
  | unboundLocalError
  deriving DecidableEq, Repr

/-! ## Python string primitives used by the source -/

/-- Python `str.lstrip()` (whitespace variant). -/
def lstripWS (s : String) : String := ⟨s.data.dropWhile Char.isWhitespace⟩

/-- Python `str.rstrip()` (whitespace variant). -/
def rstripWS (s : String) : String := ⟨(s.data.reverse.dropWhile Char.isWhitespace).reverse⟩

/-- Python `str.strip()` (whitespace variant). -/
def stripWS (s : String) : String := lstripWS (rstripWS s)

/-- Python `str.rstrip("/")`: drop every trailing `/`. -/
def rstripSlash (s : String) : String := ⟨(s.data.reverse.dropWhile (· == '/')).reverse⟩

/-- Python `s.startswith(pre)`. -/
def startswith (pre s : String) : Bool := pre.data.isPrefixOf s.data

/-- Python `s.endswith(suf)`. -/
def endswith (suf s : String) : Bool := suf.data.isSuffixOf s.data

/-- Python `s.lower()` (ASCII case folding, which is all the code compares). -/
def lower (s : String) : String := ⟨s.data.map Char.toLower⟩

/-- Split a character list at every newline (Python `s.split("\n")` on the
characters). -/
def splitOnNewlineChars : List Char → List (List Char)
  | [] => [[]]
  | c :: rest =>
    let r := splitOnNewlineChars rest
    if c = '\n' then [] :: r
    else
      match r with
      | [] => [[c]]
      | h :: t => (c :: h) :: t

/-- Python `s.split("\n")`. -/
def splitNL (s : String) : List String :=
  (splitOnNewlineChars s.data).map (fun cs => (⟨cs⟩ : String))

/-- Python `str.splitlines()` restricted to `\n` separators: like
`splitOn "\n"` but without the trailing empty piece produced by a final
newline (Python also honours `\r` and rarer line breaks; the robots.txt
parsing modelled here treats `\n` as the line separator). -/
def splitlines (s : String) : List String :=
  let l := splitNL s
  if l.getLast? = some "" then l.dropLast else l

/-- Split a character list at its first colon, when it has one. -/
def splitFirstColon : List Char → Option (List Char × List Char)
  | [] => none
  | c :: rest =>
    if c = ':' then some ([], rest)
    else (splitFirstColon rest).map (fun p => (c :: p.1, p.2))

/-- Python `s.split(":", maxsplit=1)`: at most one split, at the first
colon; a string with no colon yields a one-element list. -/
def splitColonOnce (s : String) : List String :=
  match splitFirstColon s.data with
  | none => [s]
  | some (before, after) => [⟨before⟩, ⟨after⟩]

/-- Does the string contain a colon? -/
def hasColon (s : String) : Bool := s.data.contains ':'

/-! ## The two regular-expression shapes used by `news_extractor.py`

`re.search(r".xml.*", link)` and
`re.search(rf"{year}.{{1}}?{month}.{{1}}?{day}", link)` only use literal
characters and the single-character wildcard `.` (the lazy `{1}?` still
matches exactly one character, and the trailing `.*` always matches), so a
pattern is a list of literal/wildcard elements and `re.search` is "the
pattern matches a prefix of some suffix". -/

inductive PatElem where
  | lit (c : Char)
  | any
  deriving DecidableEq, Repr

/-- Does the pattern match a prefix of `s`?  (`.` also matches `\n` here;
the URLs fed to these patterns contain no newline.) -/
def pmatch : List PatElem → List Char → Bool
  | [], _ => true
  | _ :: _, [] => false
  | .lit c :: ps, a :: as => a == c && pmatch ps as
  | .any :: ps, _ :: as => pmatch ps as

/-- Python `re.search`: the pattern matches at some position of `s`. -/
def psearch (pat : List PatElem) : List Char → Bool
  | [] => pmatch pat []
  | a :: as => pmatch pat (a :: as) || psearch pat as

/-- Literal characters of a string, as pattern elements. -/
def lits (s : String) : List PatElem := s.data.map PatElem.lit

/-- The pattern `r".xml.*"`: one arbitrary character, then `xml`
(the trailing `.*` imposes nothing). -/
def xmlAnywherePat : List PatElem := PatElem.any :: lits "xml"

/-! ## Timestamps

`datetime.strptime(lastmod, "%Y-%m-%dT%H:%M:%S%z")` produces an aware
datetime; the code immediately replaces the target date's `tzinfo` with the
lastmod's own, so every comparison is a wall-clock (component-wise
lexicographic) comparison and the offset itself never matters. -/

structure Timestamp where
  year : Nat
  month : Nat
  day : Nat
  hour : Nat
  minute : Nat
  second : Nat
  deriving DecidableEq, Repr

/-- Lexicographic order on datetime components, as Python compares two
aware datetimes with an identical `tzinfo`. -/
def Timestamp.lexLe (a b : Timestamp) : Bool :=
  if a.year ≠ b.year then a.year < b.year
  else if a.month ≠ b.month then a.month < b.month
  else if a.day ≠ b.day then a.day < b.day
  else if a.hour ≠ b.hour then a.hour < b.hour
  else if a.minute ≠ b.minute then a.minute < b.minute
  else a.second ≤ b.second

/-- Python `"%02d" % n`. -/
def pad2 (n : Nat) : String := if n < 10 then "0" ++ toString n else toString n

/-! ## `NewsExtractor.__init__` -/

/-- The fields of a `NewsExtractor` instance that the modelled methods
read.  `date_formatted` is the target date as parsed by `strptime`
(midnight, no time-of-day components). -/
structure NewsExtractor where
  base_url : String
  date_formatted : Timestamp
  year : String
  month : String
  day : String
  deriving Repr

/-- Model of `NewsExtractor.__init__`: strip trailing slashes from the base URL and
decompose the (already `strptime`-parsed) target date into the year, the
zero-padded month and the zero-padded day strings. -/
def NewsExtractor.init (base_url : String) (parsedDate : Timestamp) : NewsExtractor :=
  { base_url := if endswith "/" base_url then rstripSlash base_url else base_url
    date_formatted := parsedDate
    year := toString parsedDate.year
    month := pad2 parsedDate.month
    day := pad2 parsedDate.day }

/-- The date pattern `rf"{year}.{{1}}?{month}.{{1}}?{day}"` of an
extractor: year, one arbitrary character, month, one arbitrary character,
day. -/
def NewsExtractor.datePattern (e : NewsExtractor) : List PatElem :=
  lits e.year ++ [PatElem.any] ++ lits e.month ++ [PatElem.any] ++ lits e.day

/-! ## robots.txt handling (`_get_robots`, `get_sitemaps`) -/

/-- The parts of a `requests.Response` the code reads. -/
structure RobotsResponse where
  status_code : Nat
  text : String
  deriving DecidableEq, Repr

/-- Model of `NewsExtractor._get_robots`, parametrised by the outcome of
`requests.get` (`none` models a raised `requests.exceptions.RequestException`).
On the exception path the handler only logs, after which
`response.status_code` reads the never-assigned local `response` and raises
`UnboundLocalError`.  A non-200 status is only logged; the response is
returned regardless. -/
def get_robots (fetchResult : Option RobotsResponse) : Except PyErr RobotsResponse :=
  match fetchResult with
  | some response => .ok response
  | none => .error .unboundLocalError

/-- One line of the `get_sitemaps` loop body: skipped when blank after
`rstrip` or when starting with `#`; otherwise split at the first colon into
`[key, value]` — accessing `split[1]` raises `IndexError` when the line has
no colon. -/
def collectDirectives : List String → Except PyErr (List (String × String))
  | [] => .ok []
  | line :: rest =>
    if (rstripWS line).data.isEmpty then collectDirectives rest
    else if startswith "#" line then collectDirectives rest
    else
      match splitColonOnce line with
      | [k, v] => (collectDirectives rest).map (fun ds => (stripWS k, stripWS v) :: ds)
      | _ => .error .indexError

/-- Model of `NewsExtractor.get_sitemaps`, parametrised by the outcome of the
robots.txt fetch.  Collects the value of every directive whose key
lowercases to `"sitemap"`, in line order, and falls back to
`base_url ++ "/sitemap.xml"` when none is found. -/
def get_sitemaps (e : NewsExtractor) (robotsFetch : Option RobotsResponse) :
    Except PyErr (List String) :=
  match get_robots robotsFetch with
  | .error err => .error err
  | .ok response =>
    match collectDirectives (splitlines response.text) with
    | .error err => .error err
    | .ok data =>
      let sitemaps := (data.filter (fun d => lower d.1 == "sitemap")).map (·.2)
      .ok (if sitemaps.isEmpty then [e.base_url ++ "/sitemap.xml"] else sitemaps)

/-! ## Sitemap parsing (`_parse_sitemap_with_lastmod`,
`_parse_sitemap_without_lastmod`, `parse_sitemap`)

A sitemap document is a list of `<url>` entries; each has a mandatory
`<loc>` child and an optional `<lastmod>` child (whose text is modelled
already `strptime`-parsed).  `soup.find_all("lastmod")` enumerates the
lastmod tags in document order, and — since within each `<url>` element the
`loc` child precedes the `lastmod` child — `lastmod_tag.find_previous("loc")`
is the same entry's own `loc`, so the `if loc_tag:` guard always passes.

`parse_sitemap` recurses into nested sitemaps; the Python recursion has no
cycle or depth guard, so the embedding adds explicit fuel (fuel exhaustion
returns the empty contribution; every claim proved below holds for every
fuel).  `list(set(links))` is modelled as `List.dedup`: Python's set
iteration order is unspecified, and the properties claimed of the result
(membership and freedom from duplicates) do not depend on the order. -/

structure UrlEntry where
  loc : String
  lastmod : Option Timestamp
  deriving DecidableEq, Repr

/-- A fetched-and-soup-parsed sitemap document. -/
def SitemapDoc : Type := List UrlEntry

/-- Model of `NewsExtractor._parse_sitemap_with_lastmod`, with the recursive
`self.parse_sitemap` call abstracted as `recurse`.  For every entry that
carries a `lastmod` on or after the target date (compared wall-clock with
the target's `tzinfo` replaced by the lastmod's), take the entry's `loc`:
recurse when `re.search(r".xml.*", loc)` hits, else keep the `loc` when
the date pattern matches. -/
def parse_sitemap_with_lastmod (e : NewsExtractor) (recurse : String → List String)
    (doc : SitemapDoc) (links : List String) : List String :=
  doc.foldl (fun links entry =>
    match entry.lastmod with
    | none => links
    | some lastmod_date =>
      if e.date_formatted.lexLe lastmod_date then
        let link := entry.loc
        if psearch xmlAnywherePat link.data then links ++ recurse link
        else if psearch e.datePattern link.data then links ++ [link]
        else links
      else links) links

/-- Model of `NewsExtractor._parse_sitemap_without_lastmod`, with the recursive
`self.parse_sitemap` call abstracted as `recurse`.  Every `loc` whose text
matches the date pattern is recursed into when it ends with `.xml`, and
kept otherwise. -/
def parse_sitemap_without_lastmod (e : NewsExtractor) (recurse : String → List String)
    (doc : SitemapDoc) (links : List String) : List String :=
  doc.foldl (fun links entry =>
    let link := entry.loc
    if psearch e.datePattern link.data then
      if endswith ".xml" link then links ++ recurse link
      else links ++ [link]
    else links) links

/-- Model of `NewsExtractor.parse_sitemap`, parametrised by the document fetcher
(`requests.get` + `BeautifulSoup`) and by explicit recursion fuel.
`soup.find("lastmod")` — some entry carrying a lastmod — selects the
strategy for the whole document; the result is deduplicated. -/
def parse_sitemap (e : NewsExtractor) (fetch : String → SitemapDoc) :
    Nat → String → List String
  | 0, _ => []
  | fuel + 1, sitemap =>
    let soup := fetch sitemap
    let links : List String := []
    let links :=
      if soup.any (fun entry => entry.lastmod.isSome) then
        parse_sitemap_with_lastmod e (parse_sitemap e fetch fuel) soup links
      else
        parse_sitemap_without_lastmod e (parse_sitemap e fetch fuel) soup links
    links.dedup

/-! ## `extract_news` and `NewsExtractor.main` -/

/-- Model of `NewsExtractor.extract_news`, parametrised by the outcomes of
`trafilatura.fetch_url` (`none` models a `None` return on transport
failure) and `trafilatura.extract` (`none` models extraction finding no
content).  The local `news` is assigned only inside `if response:`; when
the response is falsy (`None` or the empty string) the final `return news`
reads a never-assigned local and raises `UnboundLocalError`. -/
def extract_news (fetchResult : Option String)
    (extract : String → Option String) : Except PyErr (Option String) :=
  match fetchResult with
  | some response =>
    if response.data.isEmpty then .error .unboundLocalError
    else .ok (extract response)
  | none => .error .unboundLocalError

end NewsSummarization

namespace NewsSummarization

/-! ## `model_pipeline.py` -/

/-- Model of `ModelPipeline._find_middle`. -/
def find_middle (splitted_text : List String) : Nat := splitted_text.length / 2

/-- Model of `ModelPipeline.split_input_text`, with `_count_tokens` delegated to the
model's tokenizer abstracted as `tokenCount` and
`model.tokenizer.model_max_length` as `model_max_length`.  Over the limit,
the text is split once at the middle newline-separated line; otherwise it
is returned as a one-element list. -/
def split_input_text (tokenCount : String → Nat) (model_max_length : Nat)
    (input_text : String) : List String :=
  let tokens := tokenCount input_text
  let max_tokens := model_max_length
  if tokens > max_tokens then
    let splitted_text := splitNL input_text
    let middle_index := find_middle splitted_text
    let first_part := splitted_text.take middle_index
    let second_part := splitted_text.drop middle_index
    [String.intercalate "\n" first_part, String.intercalate "\n" second_part]
  else
    [input_text]

/-- Model of `ModelPipeline.run_model`, parametrised by the outcome of the
underlying pipeline invocation `model(input_text, **kwargs)[0]` (for the
summarization task the dict's `summary_text` entry, for sentiment analysis
the `label`/`score` dict).  `OSError` and `ValueError` are caught and
turned into a `None` return; every other exception propagates. -/
def run_model {α : Type} (call : Except PyErr α) : Except PyErr (Option α) :=
  match call with
  | .ok output => .ok (some output)
  | .error .osError => .ok none
  | .error .valueError => .ok none
  | .error err => .error err

/-! ## `app.py` — the `Workload` analysis phase -/

/-- The loop of `Workload._summarize_news`: run the summarizer on each
chunk through `run_model` (so `OSError`/`ValueError` become a skipped
chunk while any other exception propagates), appending each produced
`summary_text` in chunk order. -/
def summarize_loop (run : String → Except PyErr (Option String)) :
    List String → List String → Except PyErr (List String)
  | [], summaries => .ok summaries
  | news_item :: rest, summaries =>
    match run news_item with
    | .error err => .error err
    | .ok none => summarize_loop run rest summaries
    | .ok (some summary_text) => summarize_loop run rest (summaries ++ [summary_text])

/-- The tail of `Workload._summarize_news`: raise
`ValueError("No summary output created")` when no chunk produced output,
otherwise join with `"\n"` when more than one output exists and return the
single output unchanged otherwise. -/
def summarize_chunks (run : String → Except PyErr (Option String))
    (news_split : List String) : Except PyErr String :=
  match summarize_loop run news_split [] with
  | .error err => .error err
  | .ok [] => .error .valueError
  | .ok (s :: rest) =>
    .ok (if (s :: rest).length > 1 then String.intercalate "\n" (s :: rest) else s)

/-- Model of `Workload._summarize_news` on the article text taken from the stream.
The text is an `Option String` because a failed extraction feeds `None`
into the analysis phase; the HuggingFace tokenizer rejects a `None` text
input with a `ValueError`, which the embedding raises at the
`split_input_text` call. -/
def workload_summarize_news (tokenCount : String → Nat) (model_max_length : Nat)
    (summarizerCall : String → Except PyErr String) (news : Option String) :
    Except PyErr String :=
  match news with
  | none => .error .valueError
  | some text =>
    let news_split := split_input_text tokenCount model_max_length text
    summarize_chunks (fun news_item => run_model (summarizerCall news_item)) news_split

/-- The label/score dict returned by the sentiment pipeline.  The score is
a Python float the code only carries through, never computes on, so its
type is a parameter. -/
structure SentimentOutput (σ : Type) where
  label : String
  score : σ
  deriving Repr

/-- The record built by `Workload._get_summarized_item` (one
`ArticleRecord`). -/
structure SummarizedItem (σ : Type) where
  source : String
  link : String
  article_text : Option String
  summary : Option String
  sentiment_label : Option String
  sentiment_score : Option σ
  sentiment_model : Option String
  summarization_model : Option String
  deriving Repr

/-- Model of `urllib.parse.urlparse(link).netloc`: when the URL (after an optional
`scheme:` prefix) starts with `//`, the run of characters up to the next
`/`, `?` or `#`; empty otherwise. -/
def urlparse_netloc (url : String) : String :=
  let isSchemeChar := fun (c : Char) => c.isAlphanum || c == '+' || c == '-' || c == '.'
  let d := url.data
  let rest :=
    match d.findIdx? (· == ':') with
    | some i =>
      let scheme := d.take i
      if 0 < i ∧ scheme.all isSchemeChar ∧ (scheme.headD 'a').isAlpha then d.drop (i + 1)
      else d
    | none => d
  match rest with
  | '/' :: '/' :: tail => ⟨tail.takeWhile (fun c => c ≠ '/' ∧ c ≠ '?' ∧ c ≠ '#')⟩
  | _ => ""

/-- The default all-null record built at the top of
`Workload._get_summarized_item`. -/
def default_summarized_item (σ : Type) (link : String) (news : Option String) :
    SummarizedItem σ :=
  { source := urlparse_netloc link
    link := link
    article_text := news
    summary := none
    sentiment_label := none
    sentiment_score := none
    sentiment_model := none
    summarization_model := none }

/-- Model of `Workload._get_summarized_item`.  The try-body summarizes the news,
runs the sentiment pipeline through `run_model` on the summary, and — when
`run_model` returned `None` after catching an `OSError`/`ValueError` —
subscripting `sentiment_dict["label"]` raises a `TypeError`.  The except
clauses catch exactly `IndexError`, `ValueError` and `RuntimeError`
(both the CUDA and the non-CUDA message, the latter logged at a higher
severity first), returning the untouched default record; any other
exception class propagates out of the worker. -/
def get_summarized_item (σ : Type)
    (summarizer_model_name sentiment_model_name : String)
    (tokenCount : String → Nat) (model_max_length : Nat)
    (summarizerCall : String → Except PyErr String)
    (sentimentCall : String → Except PyErr (SentimentOutput σ))
    (item : String × Option String) : Except PyErr (SummarizedItem σ) :=
  let link := item.1
  let news := item.2
  let summarized_item := default_summarized_item σ link news
  let body : Except PyErr (SummarizedItem σ) :=
    match workload_summarize_news tokenCount model_max_length summarizerCall news with
    | .error err => .error err
    | .ok news_summary =>
      match run_model (sentimentCall news_summary) with
      | .error err => .error err
      | .ok none => .error .typeError
      | .ok (some sentiment_dict) =>
        .ok { summarized_item with
                summary := some news_summary
                sentiment_label := some sentiment_dict.label
                sentiment_score := some sentiment_dict.score
                sentiment_model := some sentiment_model_name
                summarization_model := some summarizer_model_name }
  match body with
  | .ok result => .ok result
  | .error .indexError => .ok summarized_item
  | .error .valueError => .ok summarized_item
  | .error (.runtimeError _) => .ok summarized_item
  | .error err => .error err

/-- The analysis phase of `Workload.fetch_news_and_summarize`:
`items = zip(links, news_items)` mapped over the worker pool.  `Pool.map`
preserves submission order in the returned list and re-raises a worker's
uncaught exception in the parent, aborting the run; `mapM` into `Except`
models both. -/
def fetch_news_and_summarize (σ : Type)
    (worker : String × Option String → Except PyErr (SummarizedItem σ))
    (links : List String) (news_items : List (Option String)) :
    Except PyErr (List (SummarizedItem σ)) :=
  (links.zip news_items).mapM worker

/-! ## Spec-side formulations and concrete fixtures -/

/-- A robots.txt line the `get_sitemaps` loop actually processes: not
blank after `rstrip` and not a `#` comment. -/
def effectiveLine (line : String) : Bool :=
  !(rstripWS line).data.isEmpty && !(startswith "#" line)

/-- The spec's description of the robots.txt scan, written independently
of the loop: the (stripped) value of every effective `key: value` line
whose (stripped) key case-insensitively equals `"sitemap"`, in line
order. -/
def sitemapDirectiveValues (lines : List String) : List String :=
  lines.filterMap (fun line =>
    if effectiveLine line then
      match splitColonOnce line with
      | [k, v] => if lower (stripWS k) == "sitemap" then some (stripWS v) else none
      | _ => none
    else none)

/-- The key/value pairs `collectDirectives` yields when no line raises. -/
def directivesOf (lines : List String) : List (String × String) :=
  lines.filterMap (fun line =>
    if effectiveLine line then
      match splitColonOnce line with
      | [k, v] => some (stripWS k, stripWS v)
      | _ => none
    else none)

/-- The scenario extractor of §8: base URL `https://example.com`, target
date `2023-08-13`. -/
def exampleExtractor : NewsExtractor :=
  NewsExtractor.init "https://example.com" ⟨2023, 8, 13, 0, 0, 0⟩

/-- The scenario sitemap document of §8: four `loc` entries, two carrying
a `lastmod` (the 13th at noon and the 12th at 10:00, both `+00:00`) and
two carrying none. -/
def exampleSitemapDoc : SitemapDoc :=
  [ ⟨"https://example.com/2023/08/13/article1", some ⟨2023, 8, 13, 12, 0, 0⟩⟩,
    ⟨"https://example.com/2023/08/12/article2", some ⟨2023, 8, 12, 10, 0, 0⟩⟩,
    ⟨"https://example.com/2023/08/13/article3", none⟩,
    ⟨"https://example.com/2023/08/12/article4", none⟩ ]

/-- A fetcher on which the same leaf article URL is reachable through two
different nested sitemap branches of the root sitemap. -/
def duplicateBranchFetch : String → SitemapDoc := fun url =>
  if url = "https://example.com/sitemap.xml" then
    [ ⟨"https://example.com/news-2023-08-13-a.xml", none⟩,
      ⟨"https://example.com/news-2023-08-13-b.xml", none⟩ ]
  else
    [ ⟨"https://example.com/2023/08/13/duplicate", none⟩ ]

/-! ## C2: a transport failure makes `extract_news` raise instead of
returning an absent text -/

/-- C2 (code bug): when `trafilatura.fetch_url` fails and returns `None`,
`extract_news` does not return an absent text — the local `news` was never
assigned, so `return news` raises `UnboundLocalError` (here at a link
whose extraction oracle would find no content; the oracle is never
reached). -/
theorem extract_news_transport_failure_raises :
    extract_news none (fun _ => none) = .error .unboundLocalError := rfl

/-! ## C8: a robots.txt transport failure makes `get_sitemaps` raise
instead of falling back -/

/-- C8 (code bug): when `requests.get` on `base_url + "/robots.txt"`
raises a `RequestException`, `_get_robots` only logs it and then reads the
never-assigned local `response`, so `get_sitemaps` raises
`UnboundLocalError` instead of returning the fallback
`[base_url ++ "/sitemap.xml"]`. -/
theorem get_sitemaps_transport_failure_raises :
    get_sitemaps exampleExtractor none = .error .unboundLocalError := rfl

/-! ## C4: the §8 scenario document -/

/-- C4: on the scenario document, the with-lastmod strategy returns
exactly the article stamped on the 13th (its `lastmod` is on-or-after
target midnight and its path matches the `2023/08/13` date pattern), and
the without-lastmod strategy on the same document returns exactly the two
articles whose paths contain a `2023/08/13`-style date substring —
whatever the recursion callback would do, since no entry looks like a
nested sitemap. -/
theorem scenario_with_and_without_lastmod (recurse : String → List String) :
    parse_sitemap_with_lastmod exampleExtractor recurse exampleSitemapDoc [] =
      ["https://example.com/2023/08/13/article1"]
    ∧ parse_sitemap_without_lastmod exampleExtractor recurse exampleSitemapDoc [] =
      ["https://example.com/2023/08/13/article1",
       "https://example.com/2023/08/13/article3"] :=
  ⟨rfl, rfl⟩

/-! ## C5: `split_input_text` splits once at the middle line -/

/-- C5: `split_input_text` returns `[text]` unchanged when the delegated
token count is at most the model's limit, and otherwise exactly the two
parts obtained by cutting the newline-separated lines at index
`len(lines) / 2` (the middle line opening the second part); in particular
it never returns more than two parts, so no part is recursively
subdivided. -/
theorem split_input_text_single_midline_split
    (tokenCount : String → Nat) (model_max_length : Nat) (input_text : String) :
    (split_input_text tokenCount model_max_length input_text =
      if tokenCount input_text ≤ model_max_length then [input_text]
      else
        [String.intercalate "\n"
           ((splitNL input_text).take ((splitNL input_text).length / 2)),
         String.intercalate "\n"
           ((splitNL input_text).drop ((splitNL input_text).length / 2))])
    ∧ (split_input_text tokenCount model_max_length input_text).length ≤ 2 := by
  unfold split_input_text find_middle
  by_cases h : tokenCount input_text ≤ model_max_length
  · simp [h, Nat.not_lt.mpr h]
  · simp [h, Nat.lt_of_not_le h]

/-! ## C6: rejoining the per-chunk outputs -/

/-- The summarize loop over chunk runs that never propagate an exception
collects exactly the successful outputs, in chunk order, after the
accumulator. -/
theorem summarize_loop_eq_filterMap (run : String → Option String)
    (news_split : List String) :
    ∀ summaries : List String,
      summarize_loop (fun c => .ok (run c)) news_split summaries =
        .ok (summaries ++ news_split.filterMap run) := by
  induction news_split with
  | nil => intro acc; simp [summarize_loop]
  | cons c cs ih =>
    intro acc
    cases h : run c with
    | none => simp [summarize_loop, h, ih]
    | some out => simp [summarize_loop, h, ih]

/-- C6: the per-chunk transform outputs that succeed are joined in
original chunk order separated by a single newline; a single output is
returned unchanged with no separator; zero outputs make the summarization
step fail with the `ValueError` rather than return an empty summary. -/
theorem chunk_outputs_joined_in_order (run : String → Option String)
    (chunks : List String) :
    summarize_chunks (fun c => .ok (run c)) chunks =
      match chunks.filterMap run with
      | [] => .error .valueError
      | [s] => .ok s
      | l => .ok (String.intercalate "\n" l) := by
  unfold summarize_chunks
  rw [summarize_loop_eq_filterMap]
  simp only [List.nil_append]
  cases h : chunks.filterMap run with
  | nil => rfl
  | cons s rest =>
    cases rest with
    | nil => rfl
    | cons t ts =>
      have hlen : (s :: t :: ts).length > 1 := by
        simp only [List.length_cons]
        omega
      simp [hlen]

/-! ## C7: deduplication and determinism of `parse_sitemap` -/

/-- C7: whatever the fetched documents, a top-level `parse_sitemap` result
never contains a duplicate URL — even when the same leaf URL is reachable
through two different nested branches — and parsing the same document
content (an extensionally equal fetcher) twice yields the same deduplicated
list, hence the same set of links. -/
theorem parse_sitemap_nodup_and_deterministic (e : NewsExtractor)
    (fetch fetch2 : String → SitemapDoc) (fuel : Nat) (url : String)
    (h : ∀ u, fetch u = fetch2 u) :
    parse_sitemap e fetch fuel url = parse_sitemap e fetch2 fuel url
    ∧ (parse_sitemap e fetch fuel url).Nodup := by
  have hf : fetch = fetch2 := funext h
  subst hf
  refine ⟨rfl, ?_⟩
  cases fuel with
  | zero => simp [parse_sitemap]
  | succ n =>
    show (List.dedup _).Nodup
    exact List.nodup_dedup _

/-- Witness for C7 at the fetcher on which
`https://example.com/2023/08/13/duplicate` is reachable through both
nested branches of the root sitemap. -/
theorem parse_sitemap_nodup_and_deterministic_witness :
    parse_sitemap exampleExtractor duplicateBranchFetch 3
        "https://example.com/sitemap.xml" =
      parse_sitemap exampleExtractor duplicateBranchFetch 3
        "https://example.com/sitemap.xml"
    ∧ (parse_sitemap exampleExtractor duplicateBranchFetch 3
        "https://example.com/sitemap.xml").Nodup :=
  parse_sitemap_nodup_and_deterministic exampleExtractor duplicateBranchFetch
    duplicateBranchFetch 3 "https://example.com/sitemap.xml" (fun _ => rfl)

/-! ## C3: the five analysis fields degrade together -/

/-- C3: whatever the model oracles do, every record the worker actually
emits has its five analysis-derived optional fields either all populated
(full success) or all null; no emitted record carries a value from an
earlier stage with a later stage failed. -/
theorem analysis_fields_degrade_together (σ : Type)
    (summarizer_model_name sentiment_model_name : String)
    (tokenCount : String → Nat) (model_max_length : Nat)
    (summarizerCall : String → Except PyErr String)
    (sentimentCall : String → Except PyErr (SentimentOutput σ))
    (item : String × Option String) (r : SummarizedItem σ)
    (h : get_summarized_item σ summarizer_model_name sentiment_model_name
        tokenCount model_max_length summarizerCall sentimentCall item = .ok r) :
    (r.summary.isSome ∧ r.sentiment_label.isSome ∧ r.sentiment_score.isSome
      ∧ r.sentiment_model.isSome ∧ r.summarization_model.isSome)
    ∨ (r.summary = none ∧ r.sentiment_label = none ∧ r.sentiment_score = none
      ∧ r.sentiment_model = none ∧ r.summarization_model = none) := by
  simp only [get_summarized_item] at h
  cases hA : workload_summarize_news tokenCount model_max_length summarizerCall item.2 with
  | error e =>
    rw [hA] at h
    cases e <;> (try exact Except.noConfusion h) <;>
      (simp only [Except.ok.injEq] at h;
       exact Or.inr (by rw [← h]; simp [default_summarized_item]))
  | ok news_summary =>
    rw [hA] at h
    dsimp only at h
    cases hB : run_model (sentimentCall news_summary) with
    | error e2 =>
      rw [hB] at h
      cases e2 <;> (try exact Except.noConfusion h) <;>
        (simp only [Except.ok.injEq] at h;
         exact Or.inr (by rw [← h]; simp [default_summarized_item]))
    | ok o =>
      rw [hB] at h
      cases o with
      | none => simp at h
      | some sentiment_dict =>
        simp only [Except.ok.injEq] at h
        exact Or.inl (by rw [← h]; simp)

/-- The record emitted by a fully successful worker run in the C3
witness. -/
def fullSuccessRecord : SummarizedItem Int :=
  { source := "a", link := "http://a", article_text := some "na",
    summary := some "S:na", sentiment_label := some "POSITIVE",
    sentiment_score := some 1, sentiment_model := some "distil-sentiment",
    summarization_model := some "t5-summarizer" }

/-- Witness for C3 at a fully successful item. -/
theorem analysis_fields_degrade_together_witness :
    (fullSuccessRecord.summary.isSome ∧ fullSuccessRecord.sentiment_label.isSome
      ∧ fullSuccessRecord.sentiment_score.isSome
      ∧ fullSuccessRecord.sentiment_model.isSome
      ∧ fullSuccessRecord.summarization_model.isSome)
    ∨ (fullSuccessRecord.summary = none ∧ fullSuccessRecord.sentiment_label = none
      ∧ fullSuccessRecord.sentiment_score = none
      ∧ fullSuccessRecord.sentiment_model = none
      ∧ fullSuccessRecord.summarization_model = none) :=
  analysis_fields_degrade_together Int "t5-summarizer" "distil-sentiment"
    (fun _ => 1) 512 (fun t => .ok ("S:" ++ t)) (fun _ => .ok ⟨"POSITIVE", 1⟩)
    ("http://a", some "na") fullSuccessRecord rfl

/-! ## C1: an error outside the recognized classes aborts the whole run -/

/-- C1 (code bug): for the two-item stream below, the second item's
sentiment pipeline hits an `OSError`, which `run_model` catches into a
`None` return; `sentiment_dict["label"]` then raises `TypeError`, a class
the worker's except clauses do not catch, so the whole `Pool.map` aborts
with it instead of degrading the second record and returning two
records. -/
theorem analysis_run_aborts_on_sentiment_none :
    fetch_news_and_summarize Int
      (get_summarized_item Int "t5-summarizer" "distil-sentiment"
        (fun _ => 1) 512
        (fun t => .ok ("S:" ++ t))
        (fun s => if s == "S:nb" then .error .osError
                  else .ok ⟨"POSITIVE", 1⟩))
      ["http://a", "http://b"] [some "na", some "nb"] = .error .typeError := rfl

/-! ## C9 and C10: the `get_sitemaps` directive scan and its colon
precondition -/

/-- Mapping over an `Except` neither introduces nor masks an error. -/
theorem exceptMap_eq_error_iff {ε α β : Type} (f : α → β) (x : Except ε α) (e : ε) :
    x.map f = .error e ↔ x = .error e := by
  cases x <;> simp [Except.map]

/-- Splitting at the first colon succeeds exactly on character lists that
contain a colon. -/
theorem splitFirstColon_isSome_iff (l : List Char) :
    (splitFirstColon l).isSome = true ↔ ':' ∈ l := by
  induction l with
  | nil => simp [splitFirstColon]
  | cons c rest ih =>
    by_cases hc : c = ':'
    · subst hc; simp [splitFirstColon]
    · simp [splitFirstColon, hc, ih]
      exact fun hx => absurd hx.symm hc

/-- The `hasColon` test decides colon membership. -/
theorem hasColon_iff (s : String) : hasColon s = true ↔ ':' ∈ s.data := by
  simp [hasColon, List.contains]

/-- A string without a colon survives `split(":", 1)` whole. -/
theorem splitColonOnce_of_no_colon {s : String} (h : hasColon s = false) :
    splitColonOnce s = [s] := by
  unfold splitColonOnce
  cases hs : splitFirstColon s.data with
  | none => rfl
  | some p =>
    have h2 : ':' ∈ s.data :=
      (splitFirstColon_isSome_iff s.data).mp (by rw [hs]; rfl)
    have h3 : hasColon s = true := (hasColon_iff s).mpr h2
    rw [h] at h3
    exact Bool.noConfusion h3

/-- A string with a colon splits into exactly a key and a value. -/
theorem splitColonOnce_of_colon {s : String} (h : hasColon s = true) :
    ∃ a b, splitColonOnce s = [a, b] := by
  unfold splitColonOnce
  cases hs : splitFirstColon s.data with
  | none =>
    have h2 : (splitFirstColon s.data).isSome = true :=
      (splitFirstColon_isSome_iff s.data).mpr ((hasColon_iff s).mp h)
    rw [hs] at h2
    exact Bool.noConfusion h2
  | some p =>
    obtain ⟨a, b⟩ := p
    exact ⟨⟨a⟩, ⟨b⟩, rfl⟩

/-- When every effective line has a colon, the directive loop raises
nothing and yields the key/value pairs of the effective lines in order. -/
theorem collectDirectives_ok (lines : List String)
    (h : ∀ line ∈ lines, effectiveLine line = true → hasColon line = true) :
    collectDirectives lines = .ok (directivesOf lines) := by
  induction lines with
  | nil => rfl
  | cons line rest ih =>
    have hrest : ∀ l ∈ rest, effectiveLine l = true → hasColon l = true :=
      fun l hl => h l (List.mem_cons_of_mem _ hl)
    by_cases h1 : (rstripWS line).data.isEmpty
    · have heff : effectiveLine line = false := by simp [effectiveLine, h1]
      simp [collectDirectives, h1, directivesOf, heff, ih hrest]
    · by_cases h2 : startswith "#" line
      · have heff : effectiveLine line = false := by simp [effectiveLine, h2]
        simp [collectDirectives, h1, h2, directivesOf, heff, ih hrest]
      · have heff : effectiveLine line = true := by simp [effectiveLine, h1, h2]
        have hcol : hasColon line = true := h line (List.mem_cons_self _ _) heff
        obtain ⟨a, b, hab⟩ := splitColonOnce_of_colon hcol
        simp [collectDirectives, h1, h2, hab, directivesOf, heff, ih hrest,
          Except.map]

/-- Filtering the collected directives for the `sitemap` key and keeping
the values is the same as the direct one-pass description of the scan. -/
theorem directive_values_eq (lines : List String) :
    ((directivesOf lines).filter (fun d => lower d.1 == "sitemap")).map (·.2)
      = sitemapDirectiveValues lines := by
  induction lines with
  | nil => rfl
  | cons line rest ih =>
    simp only [directivesOf, sitemapDirectiveValues] at ih ⊢
    rw [List.filterMap_cons, List.filterMap_cons]
    by_cases heff : effectiveLine line = true
    · cases hs : splitColonOnce line with
      | nil => simpa [heff, hs] using ih
      | cons a t =>
        cases t with
        | nil => simpa [heff, hs] using ih
        | cons b t2 =>
          cases t2 with
          | nil =>
            by_cases hk : lower (stripWS a) = "sitemap"
            · simpa [heff, hs, hk] using ih
            · simpa [heff, hs, hk] using ih
          | cons c t3 => simpa [heff, hs] using ih
    · simpa [heff] using ih

/-- C9 counterexample: on the body consisting of the single colon-free
line `User-agent *`, `get_sitemaps` does not return a (non-empty) sitemap
list — in particular not the fallback the claim prescribes for a body with
no sitemap directive — but raises `IndexError`. -/
theorem get_sitemaps_colonless_body_counterexample :
    get_sitemaps exampleExtractor (some ⟨200, "User-agent *"⟩) = .error .indexError
    ∧ get_sitemaps exampleExtractor (some ⟨200, "User-agent *"⟩) ≠
        .ok [exampleExtractor.base_url ++ "/sitemap.xml"] :=
  ⟨rfl, fun hc => Except.noConfusion hc⟩

/-- C9 as amended: on every robots.txt body whose effective (non-blank,
non-`#`) lines each contain a colon, `get_sitemaps` returns the values
of the `sitemap`-keyed directives in line order, or exactly the single
synthesized candidate `base_url ++ "/sitemap.xml"` when there is none —
a non-empty list either way. -/
theorem get_sitemaps_directives_or_fallback (e : NewsExtractor)
    (resp : RobotsResponse)
    (h : ∀ line ∈ splitlines resp.text, effectiveLine line = true → hasColon line = true) :
    get_sitemaps e (some resp) =
      .ok (if sitemapDirectiveValues (splitlines resp.text) = []
           then [e.base_url ++ "/sitemap.xml"]
           else sitemapDirectiveValues (splitlines resp.text))
    ∧ (if sitemapDirectiveValues (splitlines resp.text) = []
       then [e.base_url ++ "/sitemap.xml"]
       else sitemapDirectiveValues (splitlines resp.text)) ≠ [] := by
  constructor
  · unfold get_sitemaps get_robots
    dsimp only
    rw [collectDirectives_ok _ h]
    dsimp only
    rw [directive_values_eq]
    by_cases hv : sitemapDirectiveValues (splitlines resp.text) = []
    · simp [hv]
    · simp [hv, List.isEmpty_iff]
  · by_cases hv : sitemapDirectiveValues (splitlines resp.text) = [] <;> simp [hv]

/-- Witness for C9 (amended) at the body of the repository's own unit
test, `sitemap: https://example.com/sitemap.xml`. -/
theorem get_sitemaps_directives_or_fallback_witness :
    get_sitemaps exampleExtractor
        (some ⟨200, "sitemap: https://example.com/sitemap.xml"⟩) =
      .ok ["https://example.com/sitemap.xml"] :=
  (get_sitemaps_directives_or_fallback exampleExtractor
      ⟨200, "sitemap: https://example.com/sitemap.xml"⟩ (by decide)).1.trans
    (congrArg Except.ok (by decide))

/-- The directive loop raises `IndexError` exactly when some effective
line has no colon. -/
theorem collectDirectives_error_iff (lines : List String) :
    collectDirectives lines = .error .indexError ↔
      ∃ line ∈ lines, effectiveLine line = true ∧ hasColon line = false := by
  induction lines with
  | nil => simp [collectDirectives]
  | cons line rest ih =>
    by_cases h1 : (rstripWS line).data.isEmpty
    · have heff : effectiveLine line = false := by simp [effectiveLine, h1]
      simp [collectDirectives, h1, ih, heff]
    · by_cases h2 : startswith "#" line
      · have heff : effectiveLine line = false := by simp [effectiveLine, h2]
        simp [collectDirectives, h1, h2, ih, heff]
      · have heff : effectiveLine line = true := by simp [effectiveLine, h1, h2]
        by_cases hc : hasColon line = true
        · obtain ⟨a, b, hab⟩ := splitColonOnce_of_colon hc
          simp [collectDirectives, h1, h2, hab, ih, heff, hc,
            exceptMap_eq_error_iff]
        · have hcf : hasColon line = false := by
            cases hcb : hasColon line
            · rfl
            · exact absurd hcb hc
          simp [collectDirectives, h1, h2, splitColonOnce_of_no_colon hcf,
            heff, hcf]

/-- C10: `get_sitemaps` (with the robots fetch itself succeeding) raises
`IndexError` exactly when the body has an effective (non-blank, non-`#`)
line without a colon; under the every-effective-line-has-a-colon
precondition that out-of-bounds access is unreachable. -/
theorem get_sitemaps_index_error_iff (e : NewsExtractor) (resp : RobotsResponse) :
    get_sitemaps e (some resp) = .error .indexError ↔
      ∃ line ∈ splitlines resp.text, effectiveLine line = true ∧ hasColon line = false := by
  rw [← collectDirectives_error_iff]
  unfold get_sitemaps get_robots
  cases h : collectDirectives (splitlines resp.text) with
  | error err => simp [h]
  | ok data => simp [h]

/-- Witness for C10 at the single colon-free effective line `Disallow`. -/
theorem get_sitemaps_index_error_iff_witness :
    get_sitemaps exampleExtractor (some ⟨200, "Disallow"⟩) = .error .indexError :=
  (get_sitemaps_index_error_iff exampleExtractor ⟨200, "Disallow"⟩).mpr
    ⟨"Disallow", by decide, by decide, by decide⟩

end NewsSummarization
